import Mathlib

/-!
Verification of `update_pools_parallelv2.py`.

The Python script bulk-updates the `pools` key of a JSON config across many
hosts over SSH.  This file gives a shallow embedding of its core logic:

* `update_pools_list` / `process_config` — the pure config mutation
  (functions `update_pools_list` and the config-update block of
  `process_host`, lines 146-161 and 201-215 of the source);
* `remote_send_switchpool` — interpretation of the telnet `switchpool`
  reply (lines 136-142);
* `make_remote_backup` — the remote backup-rotation shell script modelled
  as a transformation of the backup-directory state (lines 112-133);
* `process_host` — the per-host workflow over an abstract remote
  environment (lines 164-251);
* `collectResults` — the orchestrator's result aggregation (lines 302-326).

JSON scalar values that the code only passes through are modelled as
`String`s; the `disabled` field, which the code compares with the integers
0 and 1, is an `Option Int` (`none` = key absent).  Extra, untouched JSON
fields are carried as opaque association lists.
-/

namespace UpdatePools

/-- One entry of the `pools` array: `url` and `disabled` as accessed via
`p.get("url")` / `p.get("disabled")` (`none` = key absent), plus the
remaining opaque fields (`name`, `timeout`, ...), carried verbatim. -/
structure PoolEntry where
  url : Option String
  disabled : Option Int
  extra : List (String × String)
deriving DecidableEq

def defaultPool : PoolEntry := ⟨none, none, []⟩

/-- The parsed config document: `user`, the `pools` array (`none` = key
absent), and all other top-level fields, carried verbatim. -/
structure ConfigDocument where
  user : Option String
  pools : Option (List PoolEntry)
  extra : List (String × String)
deriving DecidableEq

/-- Python truthiness of an optional string argument (`None` and `""` are
falsy), as used by `if disable_url ...` / `if disable_url or enable_url or
new_pools is not None`. -/
def truthy : Option String → Bool
  | none => false
  | some s => !s.data.isEmpty

/-- The body of the `for p in existing_pools` loop of `update_pools_list`
(source lines 153-159), acting on one entry.  The `elif` makes the enable
branch reachable only when the disable branch did not match. -/
def mutatePool (disableUrl enableUrl : Option String) (p : PoolEntry) : PoolEntry :=
  if truthy disableUrl = true ∧ p.url = disableUrl then
    if p.disabled ≠ some 1 then { p with disabled := some 1 } else p
  else if truthy enableUrl = true ∧ p.url = enableUrl then
    if p.disabled ≠ some 0 then { p with disabled := some 0 } else p
  else p

/-- `update_pools_list` (source lines 146-161): a supplied replacement list
is returned as-is; otherwise each entry is updated in place. -/
def update_pools_list (existing_pools : List PoolEntry)
    (disable_url enable_url : Option String)
    (new_pools : Option (List PoolEntry)) : List PoolEntry :=
  match new_pools with
  | some np => np
  | none => existing_pools.map (mutatePool disable_url enable_url)

/-- The config-update block of `process_host` (source lines 208-215):
read `user`, take `pools` with default `[]`, update it, store it back,
and re-store `user` when it was present. -/
def process_config (doc : ConfigDocument) (disable_url enable_url : Option String)
    (new_pools : Option (List PoolEntry)) : ConfigDocument :=
  let userVal := doc.user
  let pools2 := update_pools_list (doc.pools.getD []) disable_url enable_url new_pools
  let doc2 := { doc with pools := some pools2 }
  match userVal with
  | some u => { doc2 with user := some u }
  | none => doc2

/-! ### Basic lemmas about the mutator -/

theorem mutatePool_url (d e : Option String) (p : PoolEntry) :
    (mutatePool d e p).url = p.url := by
  unfold mutatePool
  split_ifs <;> rfl

theorem mutatePool_extra (d e : Option String) (p : PoolEntry) :
    (mutatePool d e p).extra = p.extra := by
  unfold mutatePool
  split_ifs <;> rfl

theorem mutatePool_of_no_match (d e : Option String) (p : PoolEntry)
    (hd : ¬ (truthy d = true ∧ p.url = d)) (he : ¬ (truthy e = true ∧ p.url = e)) :
    mutatePool d e p = p := by
  unfold mutatePool
  rw [if_neg hd, if_neg he]

theorem mutatePool_default (d e : Option String) :
    mutatePool d e defaultPool = defaultPool := by
  have hd : ¬ (truthy d = true ∧ defaultPool.url = d) := by
    rintro ⟨ht, hu⟩
    cases d with
    | none => simp [truthy] at ht
    | some s => simp [defaultPool] at hu
  have he : ¬ (truthy e = true ∧ defaultPool.url = e) := by
    rintro ⟨ht, hu⟩
    cases e with
    | none => simp [truthy] at ht
    | some s => simp [defaultPool] at hu
  exact mutatePool_of_no_match d e defaultPool hd he

theorem mutatePool_idem (d e : Option String) (p : PoolEntry) :
    mutatePool d e (mutatePool d e p) = mutatePool d e p := by
  unfold mutatePool
  split_ifs <;> simp_all [mutatePool_url]

theorem update_apply_eq_map (ps : List PoolEntry) (d e : Option String) :
    update_pools_list ps d e none = ps.map (mutatePool d e) := rfl

theorem getD_map_mutatePool (d e : Option String) (ps : List PoolEntry) (i : Nat) :
    (ps.map (mutatePool d e)).getD i defaultPool = mutatePool d e (ps.getD i defaultPool) := by
  induction ps generalizing i with
  | nil => simp [mutatePool_default]
  | cons p ps ih =>
    cases i with
    | zero => simp
    | succ n => simpa using ih n

/-! ### Claims about the mutator -/

/-- Claim C4: when a replacement pools list is supplied, the mutator's
output equals the replacement list exactly, and simultaneously supplied
disable/enable URL targets have no effect; likewise the document written
back by the workflow carries exactly the replacement list. -/
theorem replace_bypass (ps : List PoolEntry) (d e : Option String)
    (np : List PoolEntry) (doc : ConfigDocument) :
    update_pools_list ps d e (some np) = np
    ∧ (process_config doc d e (some np)).pools = some np := by
  refine ⟨rfl, ?_⟩
  unfold process_config
  cases doc.user <;> rfl

/-- Claim C5: applying the Disable(url) mutation twice in sequence yields
the same pools list as applying it once, and likewise for Enable(url). -/
theorem disable_enable_idempotent (ps : List PoolEntry) (u : String) :
    update_pools_list (update_pools_list ps (some u) none none) (some u) none none
      = update_pools_list ps (some u) none none
    ∧ update_pools_list (update_pools_list ps none (some u) none) none (some u) none
      = update_pools_list ps none (some u) none := by
  constructor <;>
    simp only [update_apply_eq_map, List.map_map] <;>
    exact List.map_congr_left fun p _ => mutatePool_idem _ _ p

/-- Claim C6: mutation under Disable/Enable (no replacement list) never
alters the top-level `user` field or any other non-`pools` top-level
field, preserves the length (hence order: entry `i` of the output comes
from entry `i` of the input) of the pools list, never alters a pool
entry's fields other than `disabled`, and leaves entries whose `url`
matches neither target entirely untouched. -/
theorem mutate_frame (doc : ConfigDocument) (d e : Option String) (i : Nat) :
    (process_config doc d e none).user = doc.user
    ∧ (process_config doc d e none).extra = doc.extra
    ∧ ((process_config doc d e none).pools.getD []).length = (doc.pools.getD []).length
    ∧ (((process_config doc d e none).pools.getD []).getD i defaultPool).url
        = ((doc.pools.getD []).getD i defaultPool).url
    ∧ (((process_config doc d e none).pools.getD []).getD i defaultPool).extra
        = ((doc.pools.getD []).getD i defaultPool).extra
    ∧ (¬ (truthy d = true ∧ ((doc.pools.getD []).getD i defaultPool).url = d) →
       ¬ (truthy e = true ∧ ((doc.pools.getD []).getD i defaultPool).url = e) →
       ((process_config doc d e none).pools.getD []).getD i defaultPool
         = (doc.pools.getD []).getD i defaultPool) := by
  have hpools : (process_config doc d e none).pools
      = some ((doc.pools.getD []).map (mutatePool d e)) := by
    unfold process_config
    cases doc.user <;> simp [update_apply_eq_map]
  have huser : (process_config doc d e none).user = doc.user := by
    unfold process_config
    cases h : doc.user <;> simp [h]
  have hextra : (process_config doc d e none).extra = doc.extra := by
    unfold process_config
    cases doc.user <;> rfl
  refine ⟨huser, hextra, ?_, ?_, ?_, ?_⟩
  · rw [hpools]; simp
  · rw [hpools]
    simp only [Option.getD_some, getD_map_mutatePool, mutatePool_url]
  · rw [hpools]
    simp only [Option.getD_some, getD_map_mutatePool, mutatePool_extra]
  · intro hd he
    rw [hpools]
    simp only [Option.getD_some, getD_map_mutatePool]
    exact mutatePool_of_no_match d e _ hd he

/-- Witness for C6 at a concrete document: a pool entry whose url does not
match the disable target is untouched. -/
theorem mutate_frame_witness :
    (process_config ⟨some "worker1", some [⟨some "stratum+tcp://b", some 0, [("name", "B")]⟩],
        [("api", "on")]⟩ (some "stratum+tcp://a") none none).user = some "worker1"
    ∧ ((process_config ⟨some "worker1", some [⟨some "stratum+tcp://b", some 0, [("name", "B")]⟩],
        [("api", "on")]⟩ (some "stratum+tcp://a") none none).pools.getD []).getD 0 defaultPool
      = ⟨some "stratum+tcp://b", some 0, [("name", "B")]⟩ := by
  have h := mutate_frame ⟨some "worker1", some [⟨some "stratum+tcp://b", some 0, [("name", "B")]⟩],
      [("api", "on")]⟩ (some "stratum+tcp://a") none 0
  exact ⟨h.1, (h.2.2.2.2.2 (by decide) (by decide))⟩

/-- Claim C10: when both a disable URL and an enable URL are supplied (as
the code's truthiness gate understands "supplied": a non-empty string) and
a pool entry's url equals both targets, the disable branch takes
precedence: that entry's `disabled` flag is set to 1. -/
theorem disable_precedence (ps : List PoolEntry) (u : String) (i : Nat)
    (hu : u ≠ "") (hurl : ((ps.getD i defaultPool).url) = some u) :
    ((update_pools_list ps (some u) (some u) none).getD i defaultPool).disabled = some 1 := by
  rw [update_apply_eq_map, getD_map_mutatePool]
  have ht : truthy (some u) = true := by
    simp [truthy]
    intro hdata
    exact hu (by cases u with | mk l => simp at hdata; simp [hdata])
  unfold mutatePool
  rw [if_pos ⟨ht, hurl⟩]
  split_ifs with h1
  · rfl
  · simpa using h1

/-- Witness for C10: with disable and enable both targeting the same url,
the matching entry ends disabled. -/
theorem disable_precedence_witness :
    ((update_pools_list [⟨some "stratum+tcp://a", some 0, []⟩]
        (some "stratum+tcp://a") (some "stratum+tcp://a") none).getD 0 defaultPool).disabled
      = some 1 :=
  disable_precedence [⟨some "stratum+tcp://a", some 0, []⟩] "stratum+tcp://a" 0
    (by decide) (by decide)

/-! ### Switchpool reply interpretation

`remote_send_switchpool` (source lines 136-142) runs the telnet command and
decides success from the reply text: `combined = (out + err).lower()` and
`if "ok|" in combined`.  Python's `str.lower`, `str.strip` and substring
test are embedded below as executable functions on the character data
(`Char.toLower` covers the ASCII letters, which is all the marker needs). -/

def lowerStr (s : String) : String := ⟨s.data.map Char.toLower⟩

def trimStr (s : String) : String :=
  ⟨((s.data.dropWhile Char.isWhitespace).reverse.dropWhile Char.isWhitespace).reverse⟩

/-- `needle in hay` on character lists: some suffix of `hay` starts with
`needle`. -/
def containsSub (hay needle : List Char) : Bool :=
  match hay with
  | [] => needle.isEmpty
  | _ :: rest => needle.isPrefixOf hay || containsSub rest needle

def okMarker : List Char := "ok|".data

/-- `remote_send_switchpool` (source lines 136-142), as a function of the
exit status and the two output streams of the remote telnet command. -/
def remote_send_switchpool (es : Int) (out err : String) : Bool × String :=
  if containsSub (lowerStr (out ++ err)).data okMarker then (true, "switchpool ok")
  else (false, if (trimStr (lowerStr (out ++ err))).data.isEmpty
               then "exit_status=" ++ toString es
               else trimStr (lowerStr (out ++ err)))

/-- Splitting a character list into its lines (maximal `'\n'`-free runs). -/
def splitLines (cs : List Char) : List (List Char) :=
  match cs with
  | [] => [[]]
  | c :: rest =>
    if c = '\n' then [] :: splitLines rest
    else
      match splitLines rest with
      | [] => [[c]]
      | l :: ls => (c :: l) :: ls

/-- The success criterion as the spec words it: some line of the lowered
reply begins with the recognized ok-prefix. -/
def specOkReply (reply : String) : Bool :=
  (splitLines (lowerStr reply).data).any (fun l => okMarker.isPrefixOf l)

theorem splitLines_ne_nil (cs : List Char) : splitLines cs ≠ [] := by
  cases cs with
  | nil => simp [splitLines]
  | cons c rest =>
    unfold splitLines
    split_ifs
    · simp
    · cases splitLines rest <;> simp

theorem isPrefixOf_trans {a b c : List Char}
    (h1 : a.isPrefixOf b = true) (h2 : b.isPrefixOf c = true) :
    a.isPrefixOf c = true := by
  induction a generalizing b c with
  | nil => simp [List.isPrefixOf]
  | cons x xs ih =>
    cases b with
    | nil => simp [List.isPrefixOf] at h1
    | cons y ys =>
      cases c with
      | nil => simp [List.isPrefixOf] at h2
      | cons z zs =>
        simp only [List.isPrefixOf, Bool.and_eq_true, beq_iff_eq] at h1 h2 ⊢
        exact ⟨h1.1.trans h2.1, ih h1.2 h2.2⟩

theorem containsSub_of_isPrefixOf {hay needle : List Char}
    (h : needle.isPrefixOf hay = true) : containsSub hay needle = true := by
  cases hay with
  | nil => cases needle with
    | nil => rfl
    | cons x xs => simp [List.isPrefixOf] at h
  | cons c rest => simp [containsSub, h]

theorem containsSub_cons {rest needle : List Char} (c : Char)
    (h : containsSub rest needle = true) : containsSub (c :: rest) needle = true := by
  simp [containsSub, h]

theorem splitLines_head_isPre :
    ∀ (cs l : List Char) (ls : List (List Char)),
      splitLines cs = l :: ls → l.isPrefixOf cs = true := by
  intro cs
  induction cs with
  | nil =>
    intro l ls h
    simp [splitLines] at h
    simp [h.1, List.isPrefixOf]
  | cons c rest ih =>
    intro l ls h
    unfold splitLines at h
    split_ifs at h with hc
    · cases h
      simp [List.isPrefixOf]
    · cases hrec : splitLines rest with
      | nil => exact absurd hrec (splitLines_ne_nil rest)
      | cons l0 ls0 =>
        rw [hrec] at h
        injection h with h1 h2
        subst h1
        simp only [List.isPrefixOf, Bool.and_eq_true, beq_self_eq_true, true_and]
        exact ih l0 ls0 hrec

theorem splitLines_mem_containsSub :
    ∀ (cs l : List Char), l ∈ splitLines cs →
      ∀ needle : List Char, needle.isPrefixOf l = true → containsSub cs needle = true := by
  intro cs
  induction cs with
  | nil =>
    intro l hl needle hpre
    simp [splitLines] at hl
    subst hl
    cases needle with
    | nil => rfl
    | cons x xs => simp [List.isPrefixOf] at hpre
  | cons c rest ih =>
    intro l hl needle hpre
    unfold splitLines at hl
    split_ifs at hl with hc
    · rcases List.mem_cons.mp hl with h | h
      · subst h
        cases needle with
        | nil => simp [containsSub, List.isPrefixOf]
        | cons x xs => simp [List.isPrefixOf] at hpre
      · exact containsSub_cons c (ih l h needle hpre)
    · cases hrec : splitLines rest with
      | nil => exact absurd hrec (splitLines_ne_nil rest)
      | cons l0 ls0 =>
        rw [hrec] at hl
        rcases List.mem_cons.mp hl with h | h
        · subst h
          have hl0 : l0.isPrefixOf rest = true := splitLines_head_isPre rest l0 ls0 hrec
          have : (c :: l0).isPrefixOf (c :: rest) = true := by
            simp only [List.isPrefixOf, Bool.and_eq_true, beq_self_eq_true, true_and]
            exact hl0
          exact containsSub_of_isPrefixOf (isPrefixOf_trans hpre this)
        · have : l ∈ splitLines rest := by rw [hrec]; exact List.mem_cons_of_mem l0 h
          exact containsSub_cons c (ih l this needle hpre)

/-! ### Claim C3 -/

/-- Counterexample to claim C3 as stated: a reply in which the ok-marker
appears only mid-line.  No line of the reply begins with the ok-prefix,
yet the trigger reports success, because the code tests plain substring
containment (`"ok|" in combined`), not a line-initial match. -/
theorem switch_marker_counterexample :
    (remote_send_switchpool 0 "foo ok| bar" "").1 = true
    ∧ specOkReply ("foo ok| bar" ++ "") = false := by
  constructor <;> decide

/-- Claim C3 (amended): the switch trigger reports success if and only if
the ok-marker occurs anywhere (as a substring, case-insensitively) in the
combined output/error text; in particular any reply with a line beginning
with the ok-prefix succeeds, but so does a reply with the marker only
mid-line.  Any other reply yields a soft failure whose message records the
(lowered, trimmed) reply, falling back to the exit status when the reply
is blank. -/
theorem switch_marker_substring (es : Int) (out err : String) :
    ((remote_send_switchpool es out err).1 = true
      ↔ containsSub (lowerStr (out ++ err)).data okMarker = true)
    ∧ (specOkReply (out ++ err) = true → (remote_send_switchpool es out err).1 = true)
    ∧ ((remote_send_switchpool es out err).1 = false →
        (remote_send_switchpool es out err).2 =
          (if (trimStr (lowerStr (out ++ err))).data.isEmpty
           then "exit_status=" ++ toString es
           else trimStr (lowerStr (out ++ err)))) := by
  refine ⟨?_, ?_, ?_⟩
  · unfold remote_send_switchpool
    split_ifs with h <;> simp [h]
  · intro hspec
    unfold specOkReply at hspec
    rw [List.any_eq_true] at hspec
    obtain ⟨l, hl, hpre⟩ := hspec
    have : containsSub (lowerStr (out ++ err)).data okMarker = true :=
      splitLines_mem_containsSub _ l hl okMarker hpre
    unfold remote_send_switchpool
    rw [if_pos this]
  · intro hfail
    unfold remote_send_switchpool at hfail ⊢
    by_cases h : containsSub (lowerStr (out ++ err)).data okMarker = true
    · rw [if_pos h] at hfail
      exact absurd hfail (by simp)
    · rw [if_neg h]

/-- Witness for C3 (amended): a reply whose first line begins with the
ok-prefix is reported as success. -/
theorem switch_marker_substring_witness :
    (remote_send_switchpool 0 "OK|pool switched" "").1 = true :=
  (switch_marker_substring 0 "OK|pool switched" "").2.1 (by decide)

/-! ### Backup rotation

`make_remote_backup` (source lines 112-133) runs one remote shell script
under `set -e`.  The backup directory is modelled as the contents of the
only six file names the script touches: the original snapshot
`config.json.orig` and the five rotation slots `config.json.1` ...
`config.json.5` (`none` = file absent); `live` is the content of the live
config file, `none` when it does not exist.  The environmental steps
(`mkdir -p`, `cd`, and `mv` of an existing file) are modelled as
succeeding; both `cp` invocations carry `2>/dev/null || true`, so a `cp`
failure (in particular: live config absent) is suppressed and the script
still exits 0, which the caller reads as success. -/

structure BackupState where
  orig : Option String
  s1 : Option String
  s2 : Option String
  s3 : Option String
  s4 : Option String
  s5 : Option String
deriving DecidableEq

/-- `make_remote_backup`: seed the original snapshot if missing
(best-effort), remove slot 5, shift 4→5, 3→4, 2→3, 1→2 in that order, then
copy the live config into slot 1 (best-effort).  Returns the new directory
state and the script's success signal (exit status 0). -/
def make_remote_backup (live : Option String) (b : BackupState) : BackupState × Bool :=
  let b := if b.orig.isNone then { b with orig := live } else b
  let b := { b with s5 := none }
  let b := match b.s4 with | some c => { b with s5 := some c, s4 := none } | none => b
  let b := match b.s3 with | some c => { b with s4 := some c, s3 := none } | none => b
  let b := match b.s2 with | some c => { b with s3 := some c, s2 := none } | none => b
  let b := match b.s1 with | some c => { b with s2 := some c, s1 := none } | none => b
  let b := match live with | some c => { b with s1 := some c } | none => b
  (b, true)

/-- The numbered rotation slots currently present. -/
def slotList (b : BackupState) : List String :=
  [b.s1, b.s2, b.s3, b.s4, b.s5].filterMap id

/-- The original snapshots currently present (the one file name can hold at
most one). -/
def origList (b : BackupState) : List String := b.orig.toList

/-- A sequence of successive rotations, each against the then-current live
config content. -/
def rotateSeq (lives : List (Option String)) (b : BackupState) : BackupState :=
  lives.foldl (fun st l => (make_remote_backup l st).1) b

/-- Full characterization of one rotation, proved by exhausting the file
presence patterns. -/
theorem rotate_spec (live : Option String) (b : BackupState) :
    (make_remote_backup live b).2 = true
    ∧ ((make_remote_backup live b).1).s1 = live
    ∧ ((make_remote_backup live b).1).s2 = b.s1
    ∧ ((make_remote_backup live b).1).s3 = b.s2
    ∧ ((make_remote_backup live b).1).s4 = b.s3
    ∧ ((make_remote_backup live b).1).s5 = b.s4
    ∧ ((make_remote_backup live b).1).orig = (if b.orig.isNone then live else b.orig) := by
  obtain ⟨o, a1, a2, a3, a4, a5⟩ := b
  cases o <;> cases a1 <;> cases a2 <;> cases a3 <;> cases a4 <;> cases a5 <;> cases live <;>
    simp [make_remote_backup]

theorem rotate_orig_mono (live : Option String) (b : BackupState) (c : String)
    (h : b.orig = some c) : ((make_remote_backup live b).1).orig = some c := by
  have := (rotate_spec live b).2.2.2.2.2.2
  rw [this, h]
  simp

theorem rotateSeq_orig_mono (lives : List (Option String)) (b : BackupState) (c : String)
    (h : b.orig = some c) : (rotateSeq lives b).orig = some c := by
  induction lives generalizing b with
  | nil => exact h
  | cons l ls ih => exact ih _ (rotate_orig_mono l b c h)

/-! ### Claims C2 and C8 -/

/-- Counterexample to claim C2 as stated: on a host whose live config file
is absent, every step the script does not shield with `|| true` succeeds,
so the rotation reports success — yet nothing was copied into slot 1 (the
final `cp ... || true` failed silently and slot 1 ends empty).  A step of
the rotation failed without a non-zero script exit. -/
theorem rotation_slot1_counterexample :
    (make_remote_backup none ⟨some "orig", some "a", none, none, none, none⟩).2 = true
    ∧ ¬ ∃ c : String, (none : Option String) = some c
        ∧ ((make_remote_backup none ⟨some "orig", some "a", none, none, none, none⟩).1).s1 = some c := by
  constructor
  · rfl
  · rintro ⟨c, hc, -⟩
    exact Option.noConfusion hc

/-- Claim C2 (amended): when the live config exists, a rotation reports
success and slot 1 ends holding a copy of the live config content; the
slot-1 copy step itself is best-effort (`|| true`), so its failure — live
config absent — still exits 0, and only the unshielded steps (directory
creation, the slot shifts) can produce a non-zero exit. -/
theorem rotation_slot1_on_success (b : BackupState) (c : String) (live : Option String)
    (h : live = some c) :
    (make_remote_backup live b).2 = true
    ∧ ((make_remote_backup live b).1).s1 = some c := by
  subst h
  exact ⟨(rotate_spec (some c) b).1, (rotate_spec (some c) b).2.1⟩

/-- Witness for C2 (amended) on a concrete directory state. -/
theorem rotation_slot1_on_success_witness :
    (make_remote_backup (some "cfg") ⟨none, some "a", some "b", none, none, some "e"⟩).2 = true
    ∧ ((make_remote_backup (some "cfg") ⟨none, some "a", some "b", none, none, some "e"⟩).1).s1
        = some "cfg" :=
  rotation_slot1_on_success ⟨none, some "a", some "b", none, none, some "e"⟩ "cfg"
    (some "cfg") rfl

/-- Claim C8: across any sequence of rotations from any directory state, at
most 5 numbered slots and at most one original snapshot exist; one
rotation discards exactly the pre-rotation slot 5, shifting slots 1-4 to
2-5 and filling slot 1 from the live config; and the original snapshot,
once created, is never overwritten. -/
theorem backup_bound (live : Option String) (b : BackupState) :
    ((make_remote_backup live b).1).s2 = b.s1
    ∧ ((make_remote_backup live b).1).s3 = b.s2
    ∧ ((make_remote_backup live b).1).s4 = b.s3
    ∧ ((make_remote_backup live b).1).s5 = b.s4
    ∧ ((make_remote_backup live b).1).s1 = live
    ∧ (slotList ((make_remote_backup live b).1)).length ≤ 5
    ∧ (origList ((make_remote_backup live b).1)).length ≤ 1
    ∧ (∀ c : String, b.orig = some c → ((make_remote_backup live b).1).orig = some c)
    ∧ (∀ (lives : List (Option String)) (c : String),
        b.orig = some c → (rotateSeq lives b).orig = some c) := by
  obtain ⟨h2, h3, h4, h5, h1, _⟩ := (rotate_spec live b).2
  refine ⟨h3, h4, h5, h1, h2, ?_, ?_, rotate_orig_mono live b, fun lives => rotateSeq_orig_mono lives b⟩
  · calc (slotList ((make_remote_backup live b).1)).length
        ≤ [((make_remote_backup live b).1).s1, ((make_remote_backup live b).1).s2,
           ((make_remote_backup live b).1).s3, ((make_remote_backup live b).1).s4,
           ((make_remote_backup live b).1).s5].length := List.length_filterMap_le _ _
      _ = 5 := rfl
  · unfold origList
    cases ((make_remote_backup live b).1).orig <;> simp

/-- Witness for C8: a full directory rotates with slot 5 discarded, slots
1-4 shifted, and the original snapshot kept, including across a further
rotation sequence. -/
theorem backup_bound_witness :
    ((make_remote_backup (some "new") ⟨some "o", some "a", some "b", some "c", some "d", some "e"⟩).1).s2
        = some "a"
    ∧ ((make_remote_backup (some "new") ⟨some "o", some "a", some "b", some "c", some "d", some "e"⟩).1).s1
        = some "new"
    ∧ (rotateSeq [some "x", none, some "y"]
        ⟨some "o", some "a", some "b", some "c", some "d", some "e"⟩).orig = some "o" := by
  have h := backup_bound (some "new") ⟨some "o", some "a", some "b", some "c", some "d", some "e"⟩
  exact ⟨h.1, h.2.2.2.2.1, h.2.2.2.2.2.2.2.2 [some "x", none, some "y"] "o" rfl⟩

/-! ### The per-host workflow

`process_host` (source lines 164-251) drives one host: connect, resolve
the remote paths, rotate backups, read / parse / mutate / write the
config, optionally send `switchpool`, and assemble one result record.
The remote side is abstracted as an `Env` holding each remote operation's
outcome; `exn` marks an operation raising an exception that the function's
outer `except Exception` handler (line 238) catches.  The live config file
content is threaded through explicitly, together with a trace of the
read/write accesses made to it. -/

inductive OpOutcome (α : Type) where
  | ok (val : α)
  | exn (msg : String)
deriving DecidableEq

def OpOutcome.isOk {α : Type} : OpOutcome α → Bool
  | .ok _ => true
  | .exn _ => false

/-- Outcome of `sftp.open(config_path, 'r')` + `read().decode()`: on `ok`
the data obtained is the live file's content; `ioErr` is an `IOError`
(caught by the dedicated handler at line 196); `raised` is any other
exception, which only the outer handler catches. -/
inductive ReadOutcome where
  | ok
  | ioErr (msg : String)
  | raised (msg : String)
deriving DecidableEq

def ReadOutcome.notRaised : ReadOutcome → Bool
  | .raised _ => false
  | _ => true

/-- Outcome of writing the new JSON back.  Every exception is caught by the
dedicated handler at line 221; `leftover` is whatever content the
interrupted transfer left in the file (the write is not atomic). -/
inductive WriteOutcome where
  | ok
  | err (msg : String) (leftover : String)
deriving DecidableEq

structure Env where
  connect : OpOutcome Unit
  resolve : OpOutcome Unit
  backup : OpOutcome (Int × String × String)
  readRes : ReadOutcome
  writeRes : WriteOutcome
  switchRes : OpOutcome (Int × String × String)
deriving DecidableEq

structure HostResult where
  ip : String
  success : Bool
  updated : Bool
  switched : Bool
  msg : String
deriving DecidableEq

def emptyResult (ip : String) : HostResult := ⟨ip, false, false, false, ""⟩

inductive FileOp where
  | read
  | write
deriving DecidableEq

structure WorkflowOutput where
  result : HostResult
  live : String
  trace : List FileOp
deriving DecidableEq

/-- The gate of the config-update block (line 185):
`if disable_url or enable_url or new_pools is not None`. -/
def mutationRequested (d e : Option String) (np : Option (List PoolEntry)) : Bool :=
  truthy d || truthy e || np.isSome

/-- Lines 229-236: optionally send `switchpool` and then set
`success = updated or switched`; an exception inside the switch command
skips that final assignment and overwrites the message. -/
def switchStep (env : Env) (doSw : Bool) (r : HostResult) (live : String)
    (tr : List FileOp) : WorkflowOutput :=
  if doSw then
    match env.switchRes with
    | .exn m => ⟨{ r with msg := "Unhandled error: " ++ m }, live, tr⟩
    | .ok (es, out, err) =>
      let sw := remote_send_switchpool es out err
      let msg2 := if r.msg ≠ "" then r.msg ++ " | switchpool: " ++ sw.2 else "switchpool: " ++ sw.2
      let r2 := { r with switched := sw.1, msg := msg2 }
      ⟨{ r2 with success := r2.updated || r2.switched }, live, tr⟩
  else
    ⟨{ r with success := r.updated || r.switched }, live, tr⟩

/-- `process_host` (source lines 164-251).  `parse` abstracts
`json.loads`, `dump` abstracts `json.dumps(config, indent=4)`; `live0` is
the live config content before the run. -/
def process_host (parse : String → Except String ConfigDocument)
    (dump : ConfigDocument → String) (env : Env) (ip : String)
    (d e : Option String) (np : Option (List PoolEntry))
    (doSw : Bool) (live0 : String) : WorkflowOutput :=
  let r0 := emptyResult ip
  match env.connect with
  | .exn m => ⟨{ r0 with msg := "SSH connect failed: " ++ m }, live0, []⟩
  | .ok _ =>
    match env.resolve with
    | .exn m => ⟨{ r0 with msg := "Unhandled error: " ++ m }, live0, []⟩
    | .ok _ =>
      if mutationRequested d e np then
        match env.backup with
        | .exn m => ⟨{ r0 with msg := "Unhandled error: " ++ m }, live0, []⟩
        | .ok (es, outB, errB) =>
          if es = 0 then
            match env.readRes with
            | .ioErr m => ⟨{ r0 with msg := "read config failed: " ++ m }, live0, []⟩
            | .raised m => ⟨{ r0 with msg := "Unhandled error: " ++ m }, live0, []⟩
            | .ok =>
              match parse live0 with
              | .error m => ⟨{ r0 with msg := "json parse failed: " ++ m }, live0, [.read]⟩
              | .ok cfg =>
                match env.writeRes with
                | .err m leftover =>
                    ⟨{ r0 with msg := "write config failed: " ++ m }, leftover, [.read, .write]⟩
                | .ok =>
                    switchStep env doSw { r0 with updated := true, msg := "config updated" }
                      (dump (process_config cfg d e np)) [.read, .write]
          else
            ⟨{ r0 with msg := "backup failed: " ++ trimStr (outB ++ errB) }, live0, []⟩
      else
        switchStep env doSw r0 live0 []

/-! ### Claims C1 and C7 -/

/-- Claim C1: in a workflow that requests a configuration mutation, when
the backup rotation script exits non-zero the workflow terminates with
`success = false` and a backup-failure message, and the live config is
never read or written afterwards — its content after the run equals its
content before the run. -/
theorem backup_failure_halts (parse : String → Except String ConfigDocument)
    (dump : ConfigDocument → String) (env : Env) (ip : String)
    (d e : Option String) (np : Option (List PoolEntry)) (doSw : Bool) (live0 : String)
    (es : Int) (outB errB : String)
    (hc : env.connect = .ok ()) (hr : env.resolve = .ok ())
    (hreq : mutationRequested d e np = true)
    (hb : env.backup = .ok (es, outB, errB)) (hes : es ≠ 0) :
    (process_host parse dump env ip d e np doSw live0).result.success = false
    ∧ (process_host parse dump env ip d e np doSw live0).result.msg
        = "backup failed: " ++ trimStr (outB ++ errB)
    ∧ (process_host parse dump env ip d e np doSw live0).live = live0
    ∧ (process_host parse dump env ip d e np doSw live0).trace = [] := by
  unfold process_host
  rw [hc, hr, hb]
  simp [hreq, hes, emptyResult]

/-- Witness for C1 at a concrete environment whose rotation script exits 1
with `mkdir: permission denied` on its error stream. -/
theorem backup_failure_halts_witness :
    (process_host (fun _ => .error "no parse") (fun _ => "")
        ⟨.ok (), .ok (), .ok (1, "", "mkdir: permission denied"), .ok, .ok, .ok (0, "", "")⟩
        "10.0.0.5" (some "stratum+tcp://a") none none false "LIVE").result.success = false
    ∧ (process_host (fun _ => .error "no parse") (fun _ => "")
        ⟨.ok (), .ok (), .ok (1, "", "mkdir: permission denied"), .ok, .ok, .ok (0, "", "")⟩
        "10.0.0.5" (some "stratum+tcp://a") none none false "LIVE").live = "LIVE" := by
  have h := backup_failure_halts (fun _ => .error "no parse") (fun _ => "")
      ⟨.ok (), .ok (), .ok (1, "", "mkdir: permission denied"), .ok, .ok, .ok (0, "", "")⟩
      "10.0.0.5" (some "stratum+tcp://a") none none false "LIVE"
      1 "" "mkdir: permission denied" rfl rfl (by decide) rfl (by decide)
  exact ⟨h.1, h.2.2.1⟩

/-- Counterexample to claim C7 as stated: when the update succeeds and the
subsequent switch command raises an exception (for example, the SSH
channel drops), the outer handler is reached before line 236 ever sets
`success`; the final HostResult then has `updated = true` but
`success = false`, so `success = (updated or switched)` fails for this
completed workflow. -/
theorem success_flag_counterexample :
    (process_host (fun _ => .ok ⟨some "w", some [], []⟩) (fun _ => "dumped")
        ⟨.ok (), .ok (), .ok (0, "", ""), .ok, .ok, .exn "SSHException: channel closed"⟩
        "10.0.0.9" (some "stratum+tcp://a") none none true "LIVE").result.updated = true
    ∧ (process_host (fun _ => .ok ⟨some "w", some [], []⟩) (fun _ => "dumped")
        ⟨.ok (), .ok (), .ok (0, "", ""), .ok, .ok, .exn "SSHException: channel closed"⟩
        "10.0.0.9" (some "stratum+tcp://a") none none true "LIVE").result.switched = false
    ∧ (process_host (fun _ => .ok ⟨some "w", some [], []⟩) (fun _ => "dumped")
        ⟨.ok (), .ok (), .ok (0, "", ""), .ok, .ok, .exn "SSHException: channel closed"⟩
        "10.0.0.9" (some "stratum+tcp://a") none none true "LIVE").result.success = false := by
  refine ⟨?_, ?_, ?_⟩ <;> decide

/-- Claim C7 (amended): whenever no remote operation raises an unhandled
exception (the path failures that are caught in place — connect failure,
non-zero backup exit, read IOError, parse failure, write failure, a soft
switch failure — may all still occur), the final HostResult satisfies
`success = (updated or switched)`; in particular a successful update
followed by a soft-failed or absent switch yields `success = true`, and a
switch-only request whose switch soft-fails yields `success = false`.
When an unhandled exception occurs after a successful update, `success`
is `false` despite `updated = true`. -/
theorem success_eq_updated_or_switched (parse : String → Except String ConfigDocument)
    (dump : ConfigDocument → String) (env : Env) (ip : String)
    (d e : Option String) (np : Option (List PoolEntry)) (doSw : Bool) (live0 : String)
    (hres : env.resolve.isOk = true) (hb : env.backup.isOk = true)
    (hread : env.readRes.notRaised = true) (hsw : env.switchRes.isOk = true) :
    (process_host parse dump env ip d e np doSw live0).result.success
      = ((process_host parse dump env ip d e np doSw live0).result.updated
         || (process_host parse dump env ip d e np doSw live0).result.switched) := by
  obtain ⟨cn, rs, bk, rd, wr, sw⟩ := env
  cases cn with
  | exn m => rfl
  | ok u =>
    cases rs with
    | exn m => exact absurd hres (by simp [OpOutcome.isOk])
    | ok u2 =>
      cases bk with
      | exn m => exact absurd hb (by simp [OpOutcome.isOk])
      | ok tr =>
        obtain ⟨es, outB, errB⟩ := tr
        cases sw with
        | exn m => exact absurd hsw (by simp [OpOutcome.isOk])
        | ok swv =>
          obtain ⟨esS, outS, errS⟩ := swv
          unfold process_host switchStep
          cases hm : mutationRequested d e np <;> simp only [if_true, if_false, Bool.false_eq_true]
          · cases doSw <;> simp [emptyResult]
          · by_cases hes : es = 0
            · simp only [if_pos hes]
              cases rd with
              | ioErr m => simp [emptyResult]
              | raised m => exact absurd hread (by simp [ReadOutcome.notRaised])
              | ok =>
                cases parse live0 with
                | error m => simp [emptyResult]
                | ok cfg =>
                  cases wr with
                  | err m leftover => simp [emptyResult]
                  | ok => cases doSw <;> simp [emptyResult]
            · simp [if_neg hes, emptyResult]

/-- Witness for C7 (amended): a successful update whose switch soft-fails
(connection refused, no ok-marker) still yields `success = true`. -/
theorem success_eq_updated_or_switched_witness :
    (process_host (fun _ => .ok ⟨some "w", some [], []⟩) (fun _ => "dumped")
        ⟨.ok (), .ok (), .ok (0, "", ""), .ok, .ok, .ok (1, "", "telnet: connection refused")⟩
        "10.0.0.3" (some "stratum+tcp://a") none none true "LIVE").result.success
      = ((process_host (fun _ => .ok ⟨some "w", some [], []⟩) (fun _ => "dumped")
        ⟨.ok (), .ok (), .ok (0, "", ""), .ok, .ok, .ok (1, "", "telnet: connection refused")⟩
        "10.0.0.3" (some "stratum+tcp://a") none none true "LIVE").result.updated
        || (process_host (fun _ => .ok ⟨some "w", some [], []⟩) (fun _ => "dumped")
        ⟨.ok (), .ok (), .ok (0, "", ""), .ok, .ok, .ok (1, "", "telnet: connection refused")⟩
        "10.0.0.3" (some "stratum+tcp://a") none none true "LIVE").result.switched) :=
  success_eq_updated_or_switched (fun _ => .ok ⟨some "w", some [], []⟩) (fun _ => "dumped")
    ⟨.ok (), .ok (), .ok (0, "", ""), .ok, .ok, .ok (1, "", "telnet: connection refused")⟩
    "10.0.0.3" (some "stratum+tcp://a") none none true "LIVE" rfl rfl rfl rfl

/-! ### The orchestrator's result aggregation

`main` (source lines 306-326) submits one `process_host` call per host to
a thread pool and collects the futures with `as_completed`, i.e. in an
arbitrary completion order; `fut.result()` either yields the host's
HostResult or re-raises an exception that escaped `process_host`, which
the `except` at line 317 converts into a failed result for that host.
`run` abstracts one submitted host computation; `order` is the completion
order, an arbitrary permutation of the submitted host list. -/

def hostOutcomeResult (run : String → Except String HostResult) (ip : String) : HostResult :=
  match run ip with
  | .ok r => r
  | .error e => ⟨ip, false, false, false, "executor error: " ++ e⟩

def collectResults (order : List String) (run : String → Except String HostResult) :
    List HostResult :=
  order.map (hostOutcomeResult run)

/-! ### Claim C9 -/

/-- Claim C9: for N submitted hosts the orchestrator collects exactly N
HostResults, one per host, in whatever order the workflows complete; a
submitted computation that raises instead of returning is converted into
a failed HostResult for its own host, so it neither aborts the batch nor
affects other hosts' entries, which stay exactly `run`'s results. -/
theorem result_completeness (hosts order : List String)
    (run : String → Except String HostResult)
    (hperm : order.Perm hosts)
    (hip : ∀ ip r, run ip = .ok r → r.ip = ip) :
    (collectResults order run).length = hosts.length
    ∧ ((collectResults order run).map HostResult.ip).Perm hosts
    ∧ (∀ ip e, run ip = .error e →
        hostOutcomeResult run ip = ⟨ip, false, false, false, "executor error: " ++ e⟩)
    ∧ (∀ ip r, run ip = .ok r → hostOutcomeResult run ip = r) := by
  have hid : ∀ ip, (hostOutcomeResult run ip).ip = ip := by
    intro ip
    unfold hostOutcomeResult
    cases h : run ip with
    | ok r => exact hip ip r h
    | error e => rfl
  refine ⟨?_, ?_, ?_, ?_⟩
  · rw [collectResults, List.length_map, hperm.length_eq]
  · have : (collectResults order run).map HostResult.ip = order := by
      rw [collectResults, List.map_map]
      calc order.map (HostResult.ip ∘ hostOutcomeResult run)
          = order.map id := List.map_congr_left fun ip _ => hid ip
        _ = order := List.map_id order
    rw [this]
    exact hperm
  · intro ip e h
    unfold hostOutcomeResult
    rw [h]
  · intro ip r h
    unfold hostOutcomeResult
    rw [h]

/-- Witness for C9: two hosts completing in reverse order, one of which
raises inside the executor, still yield exactly two results. -/
theorem result_completeness_witness :
    (collectResults ["10.0.0.2", "10.0.0.1"]
        (fun ip => if ip = "10.0.0.1" then .error "RuntimeError: boom"
                   else .ok ⟨ip, true, true, false, "config updated"⟩)).length
      = (["10.0.0.1", "10.0.0.2"] : List String).length
    ∧ hostOutcomeResult
        (fun ip => if ip = "10.0.0.1" then .error "RuntimeError: boom"
                   else .ok ⟨ip, true, true, false, "config updated"⟩) "10.0.0.1"
      = ⟨"10.0.0.1", false, false, false, "executor error: " ++ "RuntimeError: boom"⟩ := by
  have h := result_completeness ["10.0.0.1", "10.0.0.2"] ["10.0.0.2", "10.0.0.1"]
      (fun ip => if ip = "10.0.0.1" then .error "RuntimeError: boom"
                 else .ok ⟨ip, true, true, false, "config updated"⟩)
      (by decide)
      (by
        intro ip r hr
        by_cases hc : ip = "10.0.0.1"
        · simp [hc] at hr
        · simp only [if_neg hc] at hr
          cases hr
          rfl)
  exact ⟨h.1, h.2.2.1 "10.0.0.1" "RuntimeError: boom" (by simp)⟩

end UpdatePools
